import Mathlib

/-!
Verification development for `parsl/app/app_factory.py`.

The Python module defines two classes:

* `AppFactory` — wraps a callable together with execution parameters and a
  content identity (`func_hash`); calling the factory constructs one wrapper
  instance of the bound `app_class` and invokes it.
* `AppFactoryFactory` — a registry mapping the kind strings `"bash"` and
  `"python"` to wrapper classes; `make` constructs an `AppFactory` for a
  registered kind and raises `InvalidAppTypeError` otherwise.

The development below is a shallow embedding: Python callables become a
structure carrying a display name and an optional source text (`inspect.getsource`
raising `OSError` is modelled by the source being absent), `hashlib.md5` is
implemented over byte lists with `Nat` arithmetic mod 2^32, and logging is
modelled by returning a list of log messages.
-/

/-- Python values that can be passed for the `cache` and `executors`
parameters and as call arguments.  `PyVal.strList` covers the documented
`str|list` form of `executors`. -/
inductive PyVal where
  | none
  | bool (b : Bool)
  | int (n : Int)
  | str (s : String)
  | strList (xs : List String)
deriving DecidableEq

/-- Python's `x is True`: identity with the singleton `True` object.  Only the
boolean `True` itself satisfies it (`1 is True` is false in Python even though
`1 == True`). -/
def PyVal.isIdenticallyTrue : PyVal → Bool
  | .bool true => true
  | _ => false

/-- Python truthiness of the modelled values. -/
def PyVal.truthy : PyVal → Bool
  | .none => false
  | .bool b => b
  | .int n => n != 0
  | .str s => s != ""
  | .strList xs => !xs.isEmpty

/-- A Python callable as the module observes it: its `__name__` and the result
of `inspect.getsource` (absent when the source text is not recoverable). -/
structure PyFunc where
  name : String
  source : Option String
deriving DecidableEq

/-- `OSError`, the exception `inspect.getsource` raises when the source of a
callable cannot be found. -/
structure OSError where
  msg : String
deriving DecidableEq

/-- `inspect.getsource`: returns the source text of the callable, or raises
`OSError` when no text is recoverable. -/
def getsource (f : PyFunc) : Except OSError String :=
  match f.source with
  | some s => Except.ok s
  | Option.none => Except.error ⟨"could not get source code"⟩

/-- `inspect.signature func`, modelled as a value determined by the callable. -/
structure Signature where
  ofFunc : PyFunc
deriving DecidableEq

/-- `inspect.signature`. -/
def signature (f : PyFunc) : Signature := ⟨f⟩

/-! ### MD5 (`hashlib.md5(...).hexdigest()`)

A faithful implementation of MD5 over byte lists, using `Nat` arithmetic with
explicit reduction mod `2^32`. -/

/-- Truncate to a 32-bit word. -/
def w32 (n : Nat) : Nat := n % 4294967296

/-- Left-rotate a 32-bit word by `s` bits. -/
def rotl32 (x s : Nat) : Nat := w32 ((x <<< s) ||| (x >>> (32 - s)))

/-- The 64 MD5 sine-table constants `K[i] = floor(|sin(i+1)| * 2^32)`. -/
def mdK : List Nat :=
  [0xd76aa478, 0xe8c7b756, 0x242070db, 0xc1bdceee,
   0xf57c0faf, 0x4787c62a, 0xa8304613, 0xfd469501,
   0x698098d8, 0x8b44f7af, 0xffff5bb1, 0x895cd7be,
   0x6b901122, 0xfd987193, 0xa679438e, 0x49b40821,
   0xf61e2562, 0xc040b340, 0x265e5a51, 0xe9b6c7aa,
   0xd62f105d, 0x02441453, 0xd8a1e681, 0xe7d3fbc8,
   0x21e1cde6, 0xc33707d6, 0xf4d50d87, 0x455a14ed,
   0xa9e3e905, 0xfcefa3f8, 0x676f02d9, 0x8d2a4c8a,
   0xfffa3942, 0x8771f681, 0x6d9d6122, 0xfde5380c,
   0xa4beea44, 0x4bdecfa9, 0xf6bb4b60, 0xbebfbc70,
   0x289b7ec6, 0xeaa127fa, 0xd4ef3085, 0x04881d05,
   0xd9d4d039, 0xe6db99e5, 0x1fa27cf8, 0xc4ac5665,
   0xf4292244, 0x432aff97, 0xab9423a7, 0xfc93a039,
   0x655b59c3, 0x8f0ccc92, 0xffeff47d, 0x85845dd1,
   0x6fa87e4f, 0xfe2ce6e0, 0xa3014314, 0x4e0811a1,
   0xf7537e82, 0xbd3af235, 0x2ad7d2bb, 0xeb86d391]

/-- The per-round left-rotation amounts. -/
def mdS : List Nat :=
  [7, 12, 17, 22, 7, 12, 17, 22, 7, 12, 17, 22, 7, 12, 17, 22,
   5, 9, 14, 20, 5, 9, 14, 20, 5, 9, 14, 20, 5, 9, 14, 20,
   4, 11, 16, 23, 4, 11, 16, 23, 4, 11, 16, 23, 4, 11, 16, 23,
   6, 10, 15, 21, 6, 10, 15, 21, 6, 10, 15, 21, 6, 10, 15, 21]

/-- The `count` low-order bytes of `n`, little-endian. -/
def leBytes (n count : Nat) : List Nat :=
  (List.range count).map (fun i => (n >>> (8 * i)) % 256)

/-- MD5 padding: a `0x80` byte, zeros to 56 mod 64, then the bit length as
eight little-endian bytes. -/
def md5Pad (msg : List Nat) : List Nat :=
  let l := msg.length
  let k := (119 - l % 64) % 64
  msg ++ [0x80] ++ List.replicate k 0 ++ leBytes (8 * l) 8

/-- Decode a 64-byte chunk into its sixteen little-endian 32-bit words. -/
def chunkWords (chunk : List Nat) : List Nat :=
  (List.range 16).map (fun j =>
    chunk.getD (4 * j) 0 + chunk.getD (4 * j + 1) 0 * 256 +
    chunk.getD (4 * j + 2) 0 * 65536 + chunk.getD (4 * j + 3) 0 * 16777216)

/-- One of the 64 MD5 operations on the state `(a, b, c, d)`. -/
def md5Round (M : List Nat) (st : Nat × Nat × Nat × Nat) (i : Nat) :
    Nat × Nat × Nat × Nat :=
  let (a, b, c, d) := st
  let fg : Nat × Nat :=
    if i < 16 then ((b &&& c) ||| ((b ^^^ 0xffffffff) &&& d), i)
    else if i < 32 then ((d &&& b) ||| ((d ^^^ 0xffffffff) &&& c), (5 * i + 1) % 16)
    else if i < 48 then (b ^^^ c ^^^ d, (3 * i + 5) % 16)
    else (c ^^^ (b ||| (d ^^^ 0xffffffff)), (7 * i) % 16)
  let tmp := w32 (a + fg.1 + mdK.getD i 0 + M.getD fg.2 0)
  (d, w32 (b + rotl32 tmp (mdS.getD i 0)), b, c)

/-- Process one 64-byte chunk. -/
def md5Chunk (st : Nat × Nat × Nat × Nat) (chunk : List Nat) :
    Nat × Nat × Nat × Nat :=
  let M := chunkWords chunk
  let r := (List.range 64).foldl (md5Round M) st
  (w32 (st.1 + r.1), w32 (st.2.1 + r.2.1), w32 (st.2.2.1 + r.2.2.1),
   w32 (st.2.2.2 + r.2.2.2))

/-- The 16-byte MD5 digest of a byte list. -/
def md5Digest (msg : List Nat) : List Nat :=
  let padded := md5Pad msg
  let cs := (List.range (padded.length / 64)).map
    (fun i => (padded.drop (64 * i)).take 64)
  let r := cs.foldl md5Chunk (0x67452301, 0xefcdab89, 0x98badcfe, 0x10325476)
  leBytes r.1 4 ++ leBytes r.2.1 4 ++ leBytes r.2.2.1 4 ++ leBytes r.2.2.2 4

/-- Lowercase hexadecimal character for a value below 16. -/
def hexChar (n : Nat) : Char :=
  if n < 10 then Char.ofNat (48 + n) else Char.ofNat (87 + n)

/-- Two lowercase hex characters of a byte. -/
def byteHex (b : Nat) : List Char := [hexChar (b / 16), hexChar (b % 16)]

/-- `bytes.hex()`: lowercase hex string of a byte list. -/
def hexOfBytes (bytes : List Nat) : String :=
  String.mk (bytes.foldr (fun b acc => byteHex b ++ acc) [])

/-- `hashlib.md5(bytes).hexdigest()`. -/
def md5HexDigest (bytes : List Nat) : String := hexOfBytes (md5Digest bytes)

/-- One character encoded by `str.encode('utf-8')`. -/
def utf8EncodeChar (c : Char) : List Nat :=
  let v := c.toNat
  if v < 128 then [v]
  else if v < 2048 then [192 ||| (v >>> 6), 128 ||| (v &&& 63)]
  else if v < 65536 then
    [224 ||| (v >>> 12), 128 ||| ((v >>> 6) &&& 63), 128 ||| (v &&& 63)]
  else
    [240 ||| (v >>> 18), 128 ||| ((v >>> 12) &&& 63),
     128 ||| ((v >>> 6) &&& 63), 128 ||| (v &&& 63)]

/-- `str.encode('utf-8')` as a byte list. -/
def utf8Encode (s : String) : List Nat :=
  s.data.foldr (fun c acc => utf8EncodeChar c ++ acc) []

/-! ### Logging -/

/-- Severity of a message sent to `logger`. -/
inductive LogLevel where
  | debug
  | error
deriving DecidableEq

/-- A message emitted through the module logger. -/
abbrev LogMsg := LogLevel × String

/-! ### The app factory -/

/-- The argument record an `AppFactory.__call__` passes to `self.app_class`
when it constructs a wrapper instance. -/
structure AppConstructArgs where
  func : PyFunc
  data_flow_kernel : Option Nat
  executors : PyVal
  walltime : Nat
  cache : PyVal
  fn_hash : String
  auxiliary_files : Option (List String)
deriving DecidableEq

/-- The positional and keyword arguments of a factory invocation. -/
structure CallArgs where
  args : List PyVal
  kwargs : List (String × PyVal)
deriving DecidableEq

/-- An app wrapper class, as `AppFactory` uses one: it has a class name, it
can be constructed from the argument record, and the resulting instance can
be called with the invocation arguments. -/
structure AppClass (Obj Res : Type) where
  className : String
  construct : AppConstructArgs → Obj
  call : Obj → CallArgs → Res

/-- The state of an `AppFactory` object: every field `AppFactory.__init__`
assigns, in order. -/
structure AppFactory (Obj Res : Type) where
  name : String
  app_class : AppClass Obj Res
  data_flow_kernel : Option Nat
  func : PyFunc
  status : String
  walltime : Nat
  executors : PyVal
  sig : Signature
  cache : PyVal
  auxiliary_files : Option (List String)
  func_hash : String

/-- `AppFactory.__init__`.  Fields are set from the arguments, `status` is
`"created"`, and `func_hash` is computed once: when `cache is True`, the
source text is retrieved (falling back to the display name, with a debug
diagnostic, when `getsource` raises `OSError`) and MD5-hashed; otherwise
`func_hash` is the display name.  The second component collects the log
messages emitted during construction. -/
def AppFactory.init {Obj Res : Type} (app_class : AppClass Obj Res)
    (func : PyFunc) (data_flow_kernel : Option Nat) (cache : PyVal)
    (executors : PyVal) (walltime : Nat)
    (auxiliary_files : Option (List String)) :
    AppFactory Obj Res × List LogMsg :=
  let hashAndLogs : String × List LogMsg :=
    if cache.isIdenticallyTrue then
      let sourceAndLogs : String × List LogMsg :=
        match getsource func with
        | Except.ok s => (s, [])
        | Except.error _ =>
            (func.name,
             [(LogLevel.debug,
               "Unable to get source code for AppCaching. Recommend creating module")])
      (md5HexDigest (utf8Encode sourceAndLogs.1), sourceAndLogs.2)
    else
      (func.name, [])
  ({ name := func.name
     app_class := app_class
     data_flow_kernel := data_flow_kernel
     func := func
     status := "created"
     walltime := walltime
     executors := executors
     sig := signature func
     cache := cache
     auxiliary_files := auxiliary_files
     func_hash := hashAndLogs.1 }, hashAndLogs.2)

/-- The argument record `AppFactory.__call__` passes to `self.app_class`. -/
def AppFactory.wrapperArgs {Obj Res : Type} (self : AppFactory Obj Res) :
    AppConstructArgs :=
  { func := self.func
    data_flow_kernel := self.data_flow_kernel
    executors := self.executors
    walltime := self.walltime
    cache := self.cache
    fn_hash := self.func_hash
    auxiliary_files := self.auxiliary_files }

/-- `AppFactory.__call__`: construct one new `app_class` object with the
factory's stored fields and invoke it with the supplied arguments, returning
its result.  The method assigns no attribute of `self`, so the factory state
is returned unchanged alongside the result. -/
def AppFactory.callApp {Obj Res : Type} (self : AppFactory Obj Res)
    (callArgs : CallArgs) : AppFactory Obj Res × Res :=
  let app_obj := self.app_class.construct self.wrapperArgs
  (self, self.app_class.call app_obj callArgs)

/-! ### The factory registry -/

/-- `InvalidAppTypeError`, raised by `AppFactoryFactory.make` with a format
string, the registry name and the offending kind string. -/
structure InvalidAppTypeError where
  fmt : String
  registryName : String
  kind : String
deriving DecidableEq

/-- Modelled from the spec: `BashApp`, the wrapper class for the `"bash"`
kind, is defined in `parsl/app/bash_app.py`, which is not part of the sources
here.  Only its identity and its role as a constructible, callable wrapper
matter to the registry, so it is modelled as a wrapper that captures the
construction record and the invocation arguments it receives. -/
def BashApp : AppClass AppConstructArgs (AppConstructArgs × CallArgs) :=
  { className := "BashApp"
    construct := fun a => a
    call := fun obj callArgs => (obj, callArgs) }

/-- Modelled from the spec: `PythonApp`, the wrapper class for the `"python"`
kind, is defined in `parsl/app/python_app.py`, which is not part of the
sources here.  Modelled like `BashApp`, distinguished by its class name. -/
def PythonApp : AppClass AppConstructArgs (AppConstructArgs × CallArgs) :=
  { className := "PythonApp"
    construct := fun a => a
    call := fun obj callArgs => (obj, callArgs) }

/-- The state of an `AppFactoryFactory`: its name and the registry of app
kinds. -/
structure AppFactoryFactory where
  name : String
  apps : List (String × AppClass AppConstructArgs (AppConstructArgs × CallArgs))

/-- `AppFactoryFactory.__init__`: registers the `"bash"` and `"python"`
kinds. -/
def AppFactoryFactory.init (name : String) : AppFactoryFactory :=
  { name := name
    apps := [("bash", BashApp), ("python", PythonApp)] }

/-- `AppFactoryFactory.make`: when `kind` is registered, construct an
`AppFactory` bound to the registered class with all parameters forwarded
unchanged; otherwise log at error severity and raise `InvalidAppTypeError`
carrying the format string, the registry name and the offending kind. -/
def AppFactoryFactory.make (self : AppFactoryFactory) (kind : String)
    (func : PyFunc) (data_flow_kernel : Option Nat) (cache : PyVal)
    (executors : PyVal) (walltime : Nat)
    (auxiliary_files : Option (List String)) :
    Except InvalidAppTypeError
      (AppFactory AppConstructArgs (AppConstructArgs × CallArgs)) ×
      List LogMsg :=
  match self.apps.lookup kind with
  | some app_class =>
      let r := AppFactory.init app_class func data_flow_kernel cache executors
        walltime auxiliary_files
      (Except.ok r.1, r.2)
  | Option.none =>
      (Except.error
            { fmt := "AppFactory:%s Invalid app kind requested : %s "
              registryName := self.name
              kind := kind },
       [(LogLevel.error,
         "AppFactory:" ++ self.name ++ " Invalid app kind requested : " ++ kind)])

/-! ### Concrete callables used as witnesses -/

/-- A callable whose source text is recoverable. -/
def demoFunc : PyFunc := ⟨"double", some "def double(x):\n    return 2 * x\n"⟩

/-- A callable with no recoverable source text (e.g. defined interactively). -/
def demoNoSourceFunc : PyFunc := ⟨"f", Option.none⟩

/-! ### Claims -/

/-- C1: with caching enabled (`cache is True`) and the source text
recoverable, `func_hash` is the hex-encoded MD5 digest of the UTF-8-encoded
source text, and it is a deterministic function of that source text: a second
construction from a callable with identical source yields the identical hex
digest. -/
theorem contentIdentity_is_md5_of_source {Obj Res O2 R2 : Type}
    (app_class : AppClass Obj Res) (app_class2 : AppClass O2 R2)
    (nm nm2 src : String) (dfk dfk2 : Option Nat) (ex ex2 : PyVal)
    (wt wt2 : Nat) (aux aux2 : Option (List String)) :
    (AppFactory.init app_class ⟨nm, some src⟩ dfk (PyVal.bool true)
        ex wt aux).1.func_hash = md5HexDigest (utf8Encode src)
    ∧ (AppFactory.init app_class ⟨nm, some src⟩ dfk (PyVal.bool true)
        ex wt aux).1.func_hash
      = (AppFactory.init app_class2 ⟨nm2, some src⟩ dfk2 (PyVal.bool true)
        ex2 wt2 aux2).1.func_hash :=
  ⟨rfl, rfl⟩

set_option maxRecDepth 100000 in
/-- C2 counterexample: with caching enabled and no recoverable source, the
claim that `func_hash` equals the display name fails on the concrete callable
named `"f"`: the code MD5-hashes the name instead of storing it directly. -/
theorem contentIdentity_missing_source_not_name :
    ¬ ((AppFactory.init BashApp demoNoSourceFunc Option.none (PyVal.bool true)
        (PyVal.str "all") 60 Option.none).1.func_hash = "f") := by
  decide

/-- C2 (amended): with caching enabled and no recoverable source, the display
name is substituted for the source text and then MD5-hashed, so `func_hash`
is the hex-encoded MD5 digest of the UTF-8-encoded display name; the debug
diagnostic is emitted and construction succeeds. -/
theorem contentIdentity_missing_source_md5_of_name {Obj Res : Type}
    (app_class : AppClass Obj Res) (nm : String) (dfk : Option Nat)
    (ex : PyVal) (wt : Nat) (aux : Option (List String)) :
    (AppFactory.init app_class ⟨nm, Option.none⟩ dfk (PyVal.bool true)
        ex wt aux).1.func_hash = md5HexDigest (utf8Encode nm)
    ∧ (AppFactory.init app_class ⟨nm, Option.none⟩ dfk (PyVal.bool true)
        ex wt aux).2
      = [(LogLevel.debug,
          "Unable to get source code for AppCaching. Recommend creating module")] :=
  ⟨rfl, rfl⟩

/-- C3: with caching disabled (`cache` is the boolean `False`, the default),
`func_hash` is exactly the display name, regardless of the source content. -/
theorem contentIdentity_cache_disabled {Obj Res : Type}
    (app_class : AppClass Obj Res) (func : PyFunc) (dfk : Option Nat)
    (ex : PyVal) (wt : Nat) (aux : Option (List String)) :
    (AppFactory.init app_class func dfk (PyVal.bool false)
        ex wt aux).1.func_hash = func.name :=
  rfl

/-- C4: `make` raises `InvalidAppTypeError` exactly when the kind is not in
the registered set `{"bash", "python"}`; the error carries the registry name
and the offending kind, an error-severity message is logged, and no factory
is returned.  For registered kinds a factory is returned and nothing is
raised. -/
theorem make_raises_iff_unregistered (name kind : String) (func : PyFunc)
    (dfk : Option Nat) (cache ex : PyVal) (wt : Nat)
    (aux : Option (List String)) :
    (AppFactoryFactory.init name).make kind func dfk cache ex wt aux
      = if kind = "bash" then
          (Except.ok (AppFactory.init BashApp func dfk cache ex wt aux).1,
           (AppFactory.init BashApp func dfk cache ex wt aux).2)
        else if kind = "python" then
          (Except.ok (AppFactory.init PythonApp func dfk cache ex wt aux).1,
           (AppFactory.init PythonApp func dfk cache ex wt aux).2)
        else
          (Except.error
            { fmt := "AppFactory:%s Invalid app kind requested : %s "
              registryName := name
              kind := kind },
           [(LogLevel.error,
             "AppFactory:" ++ name ++ " Invalid app kind requested : " ++ kind)]) := by
  by_cases hb : kind = "bash"
  · simp [AppFactoryFactory.make, AppFactoryFactory.init, List.lookup, hb]
  · by_cases hp : kind = "python"
    · simp [AppFactoryFactory.make, AppFactoryFactory.init, List.lookup, hb, hp]
    · have hb2 : (kind == "bash") = false := by
        simp only [beq_eq_false_iff_ne, ne_eq]; exact hb
      have hp2 : (kind == "python") = false := by
        simp only [beq_eq_false_iff_ne, ne_eq]; exact hp
      simp [AppFactoryFactory.make, AppFactoryFactory.init, List.lookup,
        hb2, hp2, hb, hp]

/-- C5: for each registered kind, `make` returns a factory bound to the
corresponding wrapper class (`"bash"` to `BashApp`, `"python"` to
`PythonApp`), with the callable, the execution-context handle and all
forwarded keyword parameters passed to the factory construction unchanged. -/
theorem make_registered_binds_wrapper (name : String) (func : PyFunc)
    (dfk : Option Nat) (cache ex : PyVal) (wt : Nat)
    (aux : Option (List String)) :
    ((AppFactoryFactory.init name).make "bash" func dfk cache ex wt aux).1
      = Except.ok (AppFactory.init BashApp func dfk cache ex wt aux).1
    ∧ ((AppFactoryFactory.init name).make "python" func dfk cache ex wt aux).1
      = Except.ok (AppFactory.init PythonApp func dfk cache ex wt aux).1
    ∧ (AppFactory.init BashApp func dfk cache ex wt aux).1.app_class = BashApp
    ∧ (AppFactory.init PythonApp func dfk cache ex wt aux).1.app_class = PythonApp
    ∧ (AppFactory.init BashApp func dfk cache ex wt aux).1.func = func
    ∧ (AppFactory.init BashApp func dfk cache ex wt aux).1.data_flow_kernel = dfk
    ∧ (AppFactory.init BashApp func dfk cache ex wt aux).1.cache = cache
    ∧ (AppFactory.init BashApp func dfk cache ex wt aux).1.executors = ex
    ∧ (AppFactory.init BashApp func dfk cache ex wt aux).1.walltime = wt
    ∧ (AppFactory.init BashApp func dfk cache ex wt aux).1.auxiliary_files = aux :=
  ⟨rfl, rfl, rfl, rfl, rfl, rfl, rfl, rfl, rfl, rfl⟩

/-- C6: invoking a factory constructs exactly one wrapper instance of the
bound `app_class` from the stored fields — the callable, the
execution-context handle, the executor selector, the walltime, the caching
flag, `func_hash` and the auxiliary-file list — then invokes it with the
supplied arguments unchanged and returns its result unmodified. -/
theorem call_constructs_and_forwards {Obj Res : Type}
    (fac : AppFactory Obj Res) (a : CallArgs) :
    fac.callApp a
      = (fac, fac.app_class.call (fac.app_class.construct fac.wrapperArgs) a)
    ∧ fac.wrapperArgs
      = { func := fac.func
          data_flow_kernel := fac.data_flow_kernel
          executors := fac.executors
          walltime := fac.walltime
          cache := fac.cache
          fn_hash := fac.func_hash
          auxiliary_files := fac.auxiliary_files } :=
  ⟨rfl, rfl⟩

/-- C7: construction with caching enabled succeeds even when the source text
is not recoverable: `getsource` raises `OSError` on such a callable, yet the
constructor catches it, completes with `status = "created"`, and only the
identity is degraded (hash of the name instead of hash of the source). -/
theorem init_succeeds_without_source {Obj Res : Type}
    (app_class : AppClass Obj Res) (nm : String) (dfk : Option Nat)
    (ex : PyVal) (wt : Nat) (aux : Option (List String)) :
    getsource ⟨nm, Option.none⟩ = Except.error ⟨"could not get source code"⟩
    ∧ (AppFactory.init app_class ⟨nm, Option.none⟩ dfk (PyVal.bool true)
        ex wt aux).1.status = "created"
    ∧ (AppFactory.init app_class ⟨nm, Option.none⟩ dfk (PyVal.bool true)
        ex wt aux).1.func = ⟨nm, Option.none⟩ :=
  ⟨rfl, rfl, rfl⟩

/-- C8: `func_hash` is computed once, at construction; an invocation leaves
every factory field unchanged (the whole state is returned as it was), and
the argument record passed to every wrapper instance the factory produces
carries that same `func_hash`. -/
theorem factory_state_immutable {Obj Res : Type}
    (fac : AppFactory Obj Res) (a : CallArgs) :
    (fac.callApp a).1.name = fac.name
    ∧ (fac.callApp a).1.app_class = fac.app_class
    ∧ (fac.callApp a).1.data_flow_kernel = fac.data_flow_kernel
    ∧ (fac.callApp a).1.func = fac.func
    ∧ (fac.callApp a).1.status = fac.status
    ∧ (fac.callApp a).1.walltime = fac.walltime
    ∧ (fac.callApp a).1.executors = fac.executors
    ∧ (fac.callApp a).1.sig = fac.sig
    ∧ (fac.callApp a).1.cache = fac.cache
    ∧ (fac.callApp a).1.auxiliary_files = fac.auxiliary_files
    ∧ (fac.callApp a).1.func_hash = fac.func_hash
    ∧ (fac.callApp a).1 = fac
    ∧ (fac.callApp a).1.wrapperArgs.fn_hash = fac.func_hash
    ∧ fac.wrapperArgs.fn_hash = fac.func_hash :=
  ⟨rfl, rfl, rfl, rfl, rfl, rfl, rfl, rfl, rfl, rfl, rfl, rfl, rfl, rfl⟩

/-- C9: two separate constructions for the same callable with the same
caching flag produce identical `func_hash` values, whatever the other
parameters and the bound wrapper class are: the identity is a deterministic
function of the callable and the caching flag. -/
theorem construction_deterministic {O1 R1 O2 R2 : Type}
    (ac1 : AppClass O1 R1) (ac2 : AppClass O2 R2) (func : PyFunc)
    (cache : PyVal) (dfk1 dfk2 : Option Nat) (ex1 ex2 : PyVal)
    (wt1 wt2 : Nat) (aux1 aux2 : Option (List String)) :
    (AppFactory.init ac1 func dfk1 cache ex1 wt1 aux1).1.func_hash
      = (AppFactory.init ac2 func dfk2 cache ex2 wt2 aux2).1.func_hash :=
  rfl

/-- Only the boolean `True` satisfies the `cache is True` test. -/
theorem isIdenticallyTrue_eq_true_iff (v : PyVal) :
    v.isIdenticallyTrue = true ↔ v = PyVal.bool true := by
  cases v with
  | bool b => cases b <;> simp [PyVal.isIdenticallyTrue]
  | _ => simp [PyVal.isIdenticallyTrue]

/-- C10: the source-hashing branch runs only when `cache` is identically the
boolean `True`; any truthy value that is not `True` (e.g. the integer 1)
takes the non-caching branch, so `func_hash` is the display name, while that
same cache value is still forwarded unchanged in the record every wrapper
instance receives. -/
theorem truthy_non_True_cache_uses_name {Obj Res : Type}
    (app_class : AppClass Obj Res) (func : PyFunc) (cache : PyVal)
    (dfk : Option Nat) (ex : PyVal) (wt : Nat) (aux : Option (List String))
    (_htruthy : cache.truthy = true) (hne : cache ≠ PyVal.bool true) :
    (AppFactory.init app_class func dfk cache ex wt aux).1.func_hash
      = func.name
    ∧ (AppFactory.init app_class func dfk cache ex wt aux).1.wrapperArgs.cache
      = cache := by
  have hid : cache.isIdenticallyTrue = false := by
    rcases h : cache.isIdenticallyTrue with _ | _
    · rfl
    · exact absurd ((isIdenticallyTrue_eq_true_iff cache).1 h) hne
  constructor
  · simp [AppFactory.init, hid]
  · rfl

/-- Witness for C10 at `cache = 1` (a truthy non-`True` value). -/
theorem truthy_non_True_cache_uses_name_witness :
    (PyVal.int 1).truthy = true
    ∧ (AppFactory.init BashApp demoFunc Option.none (PyVal.int 1)
        (PyVal.str "all") 60 Option.none).1.func_hash = demoFunc.name
    ∧ (AppFactory.init BashApp demoFunc Option.none (PyVal.int 1)
        (PyVal.str "all") 60 Option.none).1.wrapperArgs.cache = PyVal.int 1 :=
  ⟨by decide,
   (truthy_non_True_cache_uses_name BashApp demoFunc (PyVal.int 1) Option.none
     (PyVal.str "all") 60 Option.none (by decide) (by decide)).1,
   (truthy_non_True_cache_uses_name BashApp demoFunc (PyVal.int 1) Option.none
     (PyVal.str "all") 60 Option.none (by decide) (by decide)).2⟩

